import Mathlib

/-!
Verification development for the Chromecast session/queue engine of the
local-music-mcp-server repository.  The definitions below are a shallow
embedding of `src/src/services/ChromecastService.js`: queue state and its
operations, next-track selection, the status normalizer, the playback
verification loop, the bounded-retry recovery wrapper, the transition
decision logic, and `disconnect`.  JavaScript numbers are modelled as `Rat`
(or `Int`/`Nat` where the source only uses integral values), JS values
received from the device as an inductive `JSVal`, fallible operations as
`Except`/outcome codes, and `Math.random` draws as an explicit draw
function `rand : Nat -> Nat` (the drawn index is reduced modulo the JS
bound, so every JS outcome is represented).
-/

/-- A queue entry as built by `addToQueue` (url, title, artist, contentType,
trackId, duration are carried along; queue operations never inspect them). -/
structure Track where
  url : String
  title : String
  artist : String
  contentType : String
deriving DecidableEq, Repr

/-- Queue-related mutable fields of `ChromecastService`
(constructor lines 22-26): `queue`, `currentTrackIndex`, `shuffle`,
`repeat` (a string among "none"/"one"/"all") and `originalQueue`. -/
structure QueueState where
  queue : List Track
  currentTrackIndex : Int
  shuffle : Bool
  repeatMode : String
  originalQueue : List Track
deriving DecidableEq, Repr

/-- The initial queue state set up by the constructor. -/
def initialQueueState : QueueState :=
  { queue := [], currentTrackIndex := -1, shuffle := false,
    repeatMode := "none", originalQueue := [] }

/-- Outcome of a queue operation: the `status` field of the returned object,
or `thrown` when the source throws a `ChromecastError`. -/
inductive QueueOutcome where
  | success
  | info
  | thrown
deriving DecidableEq, Repr

/-- `removeFromQueue(index)` (lines 1653-1677): throws when `index` is out of
range; otherwise splices the entry out and, when `currentTrackIndex >= index`,
decrements `currentTrackIndex` clamping at `-1`. -/
def removeFromQueue (index : Int) (s : QueueState) : QueueOutcome × QueueState :=
  if index < 0 ∨ (s.queue.length : Int) ≤ index then (QueueOutcome.thrown, s)
  else
    let q := s.queue.eraseIdx index.toNat
    let idx := if index ≤ s.currentTrackIndex
      then max (-1) (s.currentTrackIndex - 1)
      else s.currentTrackIndex
    (QueueOutcome.success, { s with queue := q, currentTrackIndex := idx })

/-- One step of the JS destructuring swap
`[q[i], q[j]] = [q[j], q[i]]` on a list. Out-of-range indices leave the
list unchanged (unreachable in `shuffleQueue`, whose indices are in range). -/
def swapAt {α : Type} (l : List α) (i j : Nat) : List α :=
  match l.get? i, l.get? j with
  | some a, some b => (l.set i b).set j a
  | _, _ => l

/-- The Fisher-Yates loop of `shuffleQueue` (lines 1693-1696):
`for (let i = length-1; i > 0; i--) { j = floor(random()*(i+1)); swap i j }`.
The draw for index `i` is `rand i % (i+1)`, covering exactly `0..i`. -/
def fyLoop (rand : Nat → Nat) : Nat → List Track → List Track
  | 0, l => l
  | i + 1, l => fyLoop rand i (swapAt l (i + 1) (rand (i + 1) % (i + 2)))

/-- `shuffleQueue()` (lines 1679-1709): `info` no-op when the queue has at
most one entry; otherwise snapshots `originalQueue` only when not already
shuffled, permutes the queue, sets `shuffle = true` and resets
`currentTrackIndex = -1`. -/
def shuffleQueue (rand : Nat → Nat) (s : QueueState) : QueueOutcome × QueueState :=
  if s.queue.length ≤ 1 then (QueueOutcome.info, s)
  else
    let og := if s.shuffle then s.originalQueue else s.queue
    let q := fyLoop rand (s.queue.length - 1) s.queue
    (QueueOutcome.success,
      { queue := q, currentTrackIndex := -1, shuffle := true,
        repeatMode := s.repeatMode, originalQueue := og })

/-- `restoreQueueOrder()` (lines 1711-1731): `info` no-op when not shuffled
or the snapshot is empty; otherwise restores `queue` from `originalQueue`,
clears the `shuffle` flag and resets `currentTrackIndex = -1`.  Note the
source does not clear `originalQueue` here. -/
def restoreQueueOrder (s : QueueState) : QueueOutcome × QueueState :=
  if s.shuffle = false ∨ s.originalQueue.length = 0 then (QueueOutcome.info, s)
  else
    (QueueOutcome.success,
      { s with queue := s.originalQueue, shuffle := false, currentTrackIndex := -1 })

/-- `clearQueue()` (lines 1579-1591): empties the queue and the snapshot and
resets `currentTrackIndex`; the `shuffle` flag and `repeat` are untouched. -/
def clearQueue (s : QueueState) : QueueOutcome × QueueState :=
  (QueueOutcome.success,
    { s with queue := [], currentTrackIndex := -1, originalQueue := [] })

/-- `setRepeatMode(mode)` (lines 1733-1747): validates the mode string. -/
def setRepeatMode (mode : String) (s : QueueState) : QueueOutcome × QueueState :=
  if mode = "none" ∨ mode = "one" ∨ mode = "all"
  then (QueueOutcome.success, { s with repeatMode := mode })
  else (QueueOutcome.thrown, s)

/-- The state effect of `addToQueue`'s success path (lines 1486-1495, and the
identical legacy fallback, lines 1596-1605): the internal queue is replaced by
the given tracks and `currentTrackIndex` is set to 0. -/
def addToQueueLoaded (tracks : List Track) (s : QueueState) : QueueState :=
  { s with queue := tracks, currentTrackIndex := 0 }

/-- Next-track selection of the fallback advance `_executeAdvancement`
(lines 424-479): repeat-one replays the current index, else advance by one
while not at the last index, else repeat-all wraps to 0, else the queue is
finished (`none`). -/
def advanceSelect (repeatMode : String) (len : Nat) (idx : Int) : Option Int :=
  if repeatMode = "one" ∧ 0 ≤ idx then some idx
  else if idx < (len : Int) - 1 then some (idx + 1)
  else if repeatMode = "all" ∧ 0 < len then some 0
  else none

/-- Next-track selection of `_handleTrackFinished` (lines 104-156); identical
to `advanceSelect` except for an extra `queue.length > 0` conjunct on the
advance branch. -/
def trackFinishedSelect (repeatMode : String) (len : Nat) (idx : Int) : Option Int :=
  if repeatMode = "one" ∧ 0 ≤ idx then some idx
  else if 0 < len ∧ idx < (len : Int) - 1 then some (idx + 1)
  else if repeatMode = "all" ∧ 0 < len then some 0
  else none

/-- What `skipToNext` does besides playing media. -/
inductive SkipAction where
  | playNext (i : Int)
  | stopCurrent
  | infoNoTrack
deriving DecidableEq, Repr

/-- Inputs of `skipToNext` coming from outside the queue state: whether
`currentDevice.player` exists and whether the cached status says PLAYING. -/
structure SkipEnv where
  hasPlayer : Bool
  cachedPlaying : Bool
deriving DecidableEq, Repr

/-- `skipToNext()` (lines 1172-1219): advances by one and plays only when the
queue is non-empty and `currentTrackIndex` is below the last index; otherwise
stops the current track (if a player exists and the cached state is PLAYING)
or reports that nothing is available.  `repeat` is never consulted. -/
def skipToNext (env : SkipEnv) (s : QueueState) : SkipAction × QueueState :=
  if 0 < s.queue.length ∧ s.currentTrackIndex < (s.queue.length : Int) - 1 then
    (SkipAction.playNext (s.currentTrackIndex + 1),
      { s with currentTrackIndex := s.currentTrackIndex + 1 })
  else if env.hasPlayer ∧ env.cachedPlaying then (SkipAction.stopCurrent, s)
  else (SkipAction.infoNoTrack, s)

example : advanceSelect "all" 2 1 = some 0 := by decide
example : advanceSelect "none" 3 0 = some 1 := by decide
example : advanceSelect "one" 3 2 = some 2 := by decide
example : advanceSelect "none" 3 2 = none := by decide
example : trackFinishedSelect "all" 2 1 = some 0 := by decide

def trackA : Track := { url := "u0", title := "A", artist := "x", contentType := "audio/mpeg" }

def trackB : Track := { url := "u1", title := "B", artist := "x", contentType := "audio/mpeg" }

def trackC : Track := { url := "u2", title := "C", artist := "x", contentType := "audio/mpeg" }

example :
    (shuffleQueue (fun _ => 0)
      { queue := [trackA, trackB], currentTrackIndex := 0, shuffle := false,
        repeatMode := "none", originalQueue := [] }).2.queue = [trackB, trackA] := by
  decide

/-- A JavaScript value as received in device status payloads. -/
inductive JSVal where
  | jsUndef
  | jsNull
  | jsBool (b : Bool)
  | jsNum (q : Rat)
  | jsStr (s : String)
  | jsObj (fields : List (String × JSVal))

/-- JS property read `v.k`: `undefined` unless `v` is an object having `k`. -/
def getField (v : JSVal) (k : String) : JSVal :=
  match v with
  | JSVal.jsObj fields => (fields.lookup k).getD JSVal.jsUndef
  | _ => JSVal.jsUndef

/-- JS truthiness (NaN is not modelled; `Rat` zero is the only falsy number). -/
def truthy (v : JSVal) : Bool :=
  match v with
  | JSVal.jsUndef => false
  | JSVal.jsNull => false
  | JSVal.jsBool b => b
  | JSVal.jsNum q => q ≠ 0
  | JSVal.jsStr s => s ≠ ""
  | JSVal.jsObj _ => true

def JSVal.isObj : JSVal → Bool
  | JSVal.jsObj _ => true
  | _ => false

/-- The sanitized `media.metadata` sub-object. -/
structure SafeMetadata where
  title : JSVal

/-- The sanitized `media` sub-object. -/
structure SafeMedia where
  contentId : JSVal
  contentType : JSVal
  duration : Option Rat
  metadata : Option SafeMetadata

/-- The sanitized `volume` sub-object. -/
structure SafeVolume where
  level : Rat
  muted : Bool

/-- The fully populated status shape produced by `_sanitizeStatus`
(`volume`/`media` are `none` exactly when the source leaves them `null`). -/
structure SafeStatus where
  mediaSessionId : JSVal
  playbackRate : Rat
  playerState : String
  currentTime : Rat
  volume : Option SafeVolume
  media : Option SafeMedia

/-- The default status object built by `_getDefaultStatus` (lines 38-47) and
used as the fallback of `_sanitizeStatus`. -/
def defaultSafeStatus : SafeStatus :=
  { mediaSessionId := JSVal.jsNull, playbackRate := 1, playerState := "IDLE",
    currentTime := 0, volume := none, media := none }

/-- `_sanitizeStatus(status)` (lines 549-644).  Falsy input and non-object
input return the default; otherwise each field of the default is overridden
only when the corresponding raw field passes its type check. -/
def sanitizeStatus (status : JSVal) : SafeStatus :=
  if truthy status = false then defaultSafeStatus
  else if status.isObj = false then defaultSafeStatus
  else
    let msid := getField status "mediaSessionId"
    let mediaSessionId :=
      match msid with
      | JSVal.jsUndef => JSVal.jsNull
      | JSVal.jsNull => JSVal.jsNull
      | v => v
    let playbackRate :=
      match getField status "playbackRate" with
      | JSVal.jsNum q => q
      | _ => (1 : Rat)
    let playerState :=
      match getField status "playerState" with
      | JSVal.jsStr ps => ps
      | _ => "IDLE"
    let currentTime :=
      match getField status "currentTime" with
      | JSVal.jsNum q => q
      | _ => (0 : Rat)
    let vol := getField status "volume"
    let volume :=
      if truthy vol = true ∧ vol.isObj = true then
        some { level :=
                 match getField vol "level" with
                 | JSVal.jsNum q => q
                 | _ =>
                   match vol with
                   | JSVal.jsNum q => q
                   | _ => (0 : Rat),
               muted :=
                 match getField vol "muted" with
                 | JSVal.jsBool b => b
                 | _ => false }
      else
        match vol with
        | JSVal.jsNum q => some { level := q, muted := false }
        | _ => none
    let med := getField status "media"
    let media :=
      if truthy med = true ∧ med.isObj = true then
        let cid := getField med "contentId"
        let cty := getField med "contentType"
        let mdta := getField med "metadata"
        some { contentId := if truthy cid then cid else JSVal.jsNull,
               contentType := if truthy cty then cty else JSVal.jsNull,
               duration :=
                 match getField med "duration" with
                 | JSVal.jsNum q => some q
                 | _ => none,
               metadata :=
                 if truthy mdta = true ∧ mdta.isObj = true then
                   let t := getField mdta "title"
                   some { title := if truthy t then t else JSVal.jsNull }
                 else none }
      else none
    { mediaSessionId := mediaSessionId, playbackRate := playbackRate,
      playerState := playerState, currentTime := currentTime,
      volume := volume, media := media }

/-- The raw default status object, as stored in `this.currentStatus` by
`_getDefaultStatus` on construction, on device `disconnect` events and in
`disconnect()`. -/
def defaultStatusJS : JSVal :=
  JSVal.jsObj
    [("mediaSessionId", JSVal.jsNull), ("playbackRate", JSVal.jsNum 1),
     ("playerState", JSVal.jsStr "IDLE"), ("currentTime", JSVal.jsNum 0),
     ("volume", JSVal.jsNull), ("media", JSVal.jsNull)]

/-- Session-level mutable fields of the service relevant to `disconnect()`:
the current device (by name), the cached raw status, the keep-alive timer,
and the queue fields. -/
structure ServiceState where
  currentDevice : Option String
  currentStatus : JSVal
  connectionKeepAlive : Bool
  qs : QueueState

/-- `disconnect()` (lines 1909-1920): clears the keep-alive interval, and if
a device is set, nulls it and resets the cached status to the default.  The
queue fields are not touched. -/
def disconnect (s : ServiceState) : ServiceState :=
  let s1 := { s with connectionKeepAlive := false }
  match s1.currentDevice with
  | some _ => { s1 with currentDevice := none, currentStatus := defaultStatusJS }
  | none => s1

/-- The poll interval of `_verifyPlayback` (line 980), in milliseconds. -/
def pollIntervalMs : Nat := 250

/-- The verification timeout of `_verifyPlayback` (line 981):
`Math.max(3000, Number(config.chromecast.verificationTimeout) || 5000)`.
An absent or zero configured value falls back to 5000. -/
def verificationTimeout (cfg : Option Int) : Int :=
  max 3000 (match cfg with
    | some v => if v = 0 then 5000 else v
    | none => 5000)

/-- `playerState === 'PLAYING' || playerState === 'BUFFERING'`. -/
def playingOrBuffering (ps : String) : Bool :=
  ps = "PLAYING" ∨ ps = "BUFFERING"

/-- The polling loop of `_verifyPlayback` (lines 987-1022), driven by the
sequence of player states the device reports to successive `getStatus` polls
(`none` models an errored / null / non-object poll, which leaves the cached
status unchanged).  `cached` is the `playerState` of `this.currentStatus`
(if any); each successful poll replaces it.  `fuel` is the number of loop
iterations the timeout window allows. -/
def cachedPlayingOrBuffering (cached : Option String) : Bool :=
  match cached with
  | some ps => playingOrBuffering ps
  | none => false

def verifyPlaybackLoop (cached : Option String) (polls : List (Option String)) :
    Nat → Bool
  | 0 => false
  | fuel + 1 =>
    if cachedPlayingOrBuffering cached then true
    else
      match polls with
      | [] => verifyPlaybackLoop cached [] fuel
      | p :: rest =>
        match p with
        | some ps =>
          if playingOrBuffering ps then true
          else verifyPlaybackLoop (some ps) rest fuel
        | none => verifyPlaybackLoop cached rest fuel

/-- The number of poll iterations the timeout window admits (one check every
`pollIntervalMs` after an initial `pollIntervalMs` delay). -/
def verifyFuel (cfg : Option Int) : Nat :=
  ((verificationTimeout cfg) / (pollIntervalMs : Int)).toNat

/-- `_playMediaDirectly` (lines 904-959): when the device `play` callback
acknowledges the load (`loadOk`), the playback is verified by polling; a
negative verification makes the whole command fail even though the load
itself succeeded. -/
def playMediaDirectly (loadOk : Bool) (cached : Option String)
    (polls : List (Option String)) (fuel : Nat) : Except String Unit :=
  if loadOk = false then Except.error "Failed to play media"
  else if verifyPlaybackLoop cached polls fuel = false then
    Except.error "Playback verification failed"
  else Except.ok ()

/-- `skipToTrack(trackNumber)` (lines 1368-1409): validates the 1-based track
number, sets `currentTrackIndex` to the target index BEFORE playing, then
plays the track; a play/verification failure is rethrown and the index is not
rolled back. -/
def skipToTrack (trackNumber : Int) (loadOk : Bool) (cached : Option String)
    (polls : List (Option String)) (fuel : Nat) (s : QueueState) :
    Except String Int × QueueState :=
  let targetIndex := trackNumber - 1
  if s.queue.length = 0 then (Except.error "Queue is empty", s)
  else if targetIndex < 0 ∨ (s.queue.length : Int) ≤ targetIndex then
    (Except.error "Invalid track number", s)
  else
    let s1 := { s with currentTrackIndex := targetIndex }
    match playMediaDirectly loadOk cached polls fuel with
    | Except.ok _ => (Except.ok targetIndex, s1)
    | Except.error e => (Except.error e, s1)

/-- `_playTrackWithRecovery` (lines 481-547), abstracted over the success of
each attempt (`outcome a` is whether attempt number `a` plays the track).
Returns the result, the number of attempts actually made, and the list of
waits (in ms) inserted between consecutive attempts.  The structural `fuel`
mirrors `maxAttempts - attempt + 1` of the `for` loop. -/
def recoveryGo (outcome : Nat → Bool) (attempt : Nat) :
    Nat → (Except String Nat × Nat × List Nat)
  | 0 => (Except.error "loop exhausted", 0, [])
  | fuel + 1 =>
    if outcome attempt then (Except.ok attempt, 1, [])
    else if fuel = 0 then (Except.error "track play failed", 1, [])
    else
      let r := recoveryGo outcome (attempt + 1) fuel
      (r.1, r.2.1 + 1, (1000 * attempt) :: r.2.2)

/-- `_playTrackWithRecovery` with `maxAttempts = 3` (line 482), starting at
attempt 1. -/
def playTrackWithRecovery (outcome : Nat → Bool) :
    Except String Nat × Nat × List Nat :=
  recoveryGo outcome 1 3

example : playTrackWithRecovery (fun _ => false) =
    (Except.error "track play failed", 3, [1000, 2000]) := by rfl
example : playTrackWithRecovery (fun a => a = 2) =
    (Except.ok 2, 2, [1000]) := by rfl

/-- The `media` sub-object of a raw status as read by the transition engine
(`duration` may be absent). -/
structure TransMedia where
  duration : Option Rat
deriving DecidableEq, Repr

/-- The fields of a raw status read by `_handleTrackTransition` and the
seamless-transition watcher: `playerState`, `currentTime` (possibly
undefined) and `media` (possibly null). -/
structure TransStatus where
  playerState : String
  currentTime : Option Rat
  media : Option TransMedia
deriving DecidableEq, Repr

/-- The preload trigger of `_handleTrackTransition` (lines 219-244): the
guard requires a truthy `status.media.duration` and a defined
`status.currentTime`; then preloading starts when the track is at least 70%
done, a next track exists, and neither an advance nor a preload is already
in flight. -/
def shouldPreloadNow (st : TransStatus) (len : Nat) (idx : Int)
    (isAutoAdvancing preloadInProgress : Bool) : Bool :=
  match st.media, st.currentTime with
  | some m, some ct =>
    match m.duration with
    | some d =>
      d ≠ 0 ∧ 0 < d ∧ d * (7 / 10 : Rat) ≤ ct ∧ 0 < len ∧ 0 ≤ idx ∧
        idx < (len : Int) - 1 ∧ isAutoAdvancing = false ∧
        preloadInProgress = false
    | none => false
  | _, _ => false

/-- The fallback trigger of `_handleTrackTransition` (lines 246-248): a
`PLAYING -> IDLE/BUFFERING` transition on a non-empty queue with a current
track and no advance in flight. -/
def shouldAdvanceTraditional (prev : Option String) (st : TransStatus)
    (len : Nat) (idx : Int) (isAutoAdvancing : Bool) : Bool :=
  prev = some "PLAYING" ∧
    (st.playerState = "IDLE" ∨ st.playerState = "BUFFERING") ∧
    0 < len ∧ 0 ≤ idx ∧ isAutoAdvancing = false

/-- `_handleTrackTransition` (lines 218-275) computes both triggers from the
same pre-update flag values and then fires each one whose trigger is true:
the first component says whether the preload-and-switch strategy starts, the
second whether the fallback stop-then-load advance starts. -/
def handleTrackTransition (prev : Option String) (st : TransStatus)
    (len : Nat) (idx : Int) (isAutoAdvancing preloadInProgress : Bool) :
    Bool × Bool :=
  (shouldPreloadNow st len idx isAutoAdvancing preloadInProgress,
   shouldAdvanceTraditional prev st len idx isAutoAdvancing)

/-- One check of the seamless-transition watcher. -/
inductive WatchStep where
  | cancel
  | commit (idx : Int)
  | keepWaiting
  | stopMonitoring
deriving DecidableEq, Repr

/-- `checkForTransition` inside `_setupSeamlessTransition` (lines 356-390):
cancels if an advance is already in flight; otherwise commits the switch to
`nextIndex` when at most 2 seconds remain or the player is IDLE; otherwise
keeps polling while `currentTrackIndex` has not yet moved past the target. -/
def checkForTransition (isAutoAdvancing : Bool) (st : Option TransStatus)
    (curIdx nextIndex : Int) : WatchStep :=
  if isAutoAdvancing then WatchStep.cancel
  else
    let commitNow : Bool :=
      match st with
      | some t =>
        match t.media with
        | some m =>
          match m.duration with
          | some d =>
            if d ≠ 0 then
              let ct := (t.currentTime.getD 0)
              let ct2 := if ct = 0 then (0 : Rat) else ct
              if d - ct2 ≤ 2 ∨ t.playerState = "IDLE" then true else false
            else false
          | none => false
        | none => false
      | none => false
    if commitNow then WatchStep.commit nextIndex
    else if curIdx < nextIndex then WatchStep.keepWaiting
    else WatchStep.stopMonitoring

theorem cons_set_perm {α : Type} (a b : α) :
    ∀ (t : List α) (m : Nat), t.get? m = some b →
      List.Perm (b :: t.set m a) (a :: t) := by
  intro t
  induction t with
  | nil => intro m h; simp at h
  | cons c t ih =>
    intro m h
    cases m with
    | zero =>
      simp only [List.get?_cons_zero, Option.some.injEq] at h
      subst h
      simpa using List.Perm.swap a c t
    | succ m =>
      simp only [List.get?_cons_succ] at h
      have h1 := ih m h
      have step1 : List.Perm (b :: c :: t.set m a) (c :: b :: t.set m a) :=
        List.Perm.swap c b _
      have step2 : List.Perm (c :: b :: t.set m a) (c :: a :: t) :=
        List.Perm.cons c h1
      have step3 : List.Perm (c :: a :: t) (a :: c :: t) := List.Perm.swap a c t
      simpa using (step1.trans step2).trans step3

theorem set_set_swap_perm {α : Type} :
    ∀ (l : List α) (i j : Nat) (a b : α), l.get? i = some a →
      l.get? j = some b → List.Perm ((l.set i b).set j a) l := by
  intro l
  induction l with
  | nil => intro i j a b hi _; simp at hi
  | cons c t ih =>
    intro i j a b hi hj
    cases i with
    | zero =>
      simp only [List.get?_cons_zero, Option.some.injEq] at hi
      subst hi
      cases j with
      | zero =>
        simp only [List.get?_cons_zero, Option.some.injEq] at hj
        subst hj
        simp
      | succ m =>
        simp only [List.get?_cons_succ] at hj
        simpa using cons_set_perm c b t m hj
    | succ n =>
      simp only [List.get?_cons_succ] at hi
      cases j with
      | zero =>
        simp only [List.get?_cons_zero, Option.some.injEq] at hj
        subst hj
        simpa using cons_set_perm c a t n hi
      | succ m =>
        simp only [List.get?_cons_succ] at hj
        simpa using List.Perm.cons c (ih n m a b hi hj)

theorem swapAt_perm {α : Type} (l : List α) (i j : Nat) :
    List.Perm (swapAt l i j) l := by
  unfold swapAt
  cases hi : l.get? i with
  | none => cases hj : l.get? j <;> exact List.Perm.refl l
  | some a =>
    cases hj : l.get? j with
    | none => exact List.Perm.refl l
    | some b => exact set_set_swap_perm l i j a b hi hj

theorem fyLoop_perm (rand : Nat → Nat) :
    ∀ (n : Nat) (l : List Track), List.Perm (fyLoop rand n l) l := by
  intro n
  induction n with
  | zero => intro l; exact List.Perm.refl l
  | succ i ih =>
    intro l
    exact List.Perm.trans (ih _) (swapAt_perm l (i + 1) (rand (i + 1) % (i + 2)))

/-- C10: `shuffleQueue` on a queue with at least 2 entries permutes the
entries: the result has the same length and the same multiset of tracks as
before the call — no entry is lost or duplicated by the Fisher-Yates loop. -/
theorem shuffleQueue_is_permutation (rand : Nat → Nat) (s : QueueState)
    (h : 2 ≤ s.queue.length) :
    List.Perm ((shuffleQueue rand s).2).queue s.queue ∧
    ((shuffleQueue rand s).2).queue.length = s.queue.length := by
  have hgt : ¬ s.queue.length ≤ 1 := by omega
  constructor
  · simp only [shuffleQueue, if_neg hgt]
    exact fyLoop_perm rand (s.queue.length - 1) s.queue
  · simp only [shuffleQueue, if_neg hgt]
    exact (fyLoop_perm rand (s.queue.length - 1) s.queue).length_eq

/-- C6 counterexample: starting from an already-shuffled state, `shuffleQueue`
followed immediately by `restoreQueueOrder` yields the pre-FIRST-shuffle
snapshot, not the entries immediately before that `shuffleQueue` call. -/
theorem shuffle_restore_counterexample :
    ((shuffleQueue (fun _ => 0)
        (QueueState.mk [trackA, trackB] (-1) false "none" [])).2).queue =
      [trackB, trackA] ∧
    ((restoreQueueOrder
        ((shuffleQueue (fun _ => 1)
          ((shuffleQueue (fun _ => 0)
            (QueueState.mk [trackA, trackB] (-1) false "none" [])).2)).2)).2).queue =
      [trackA, trackB] ∧
    ((restoreQueueOrder
        ((shuffleQueue (fun _ => 1)
          ((shuffleQueue (fun _ => 0)
            (QueueState.mk [trackA, trackB] (-1) false "none" [])).2)).2)).2).queue ≠
      ((shuffleQueue (fun _ => 0)
        (QueueState.mk [trackA, trackB] (-1) false "none" [])).2).queue := by
  decide

/-- C6 amended: for every queue state NOT currently in shuffle mode,
`shuffleQueue` followed immediately by `restoreQueueOrder` restores the
entries to exactly the pre-shuffle order (for already-shuffled states the
restore yields the pre-first-shuffle snapshot instead). -/
theorem shuffle_then_restore_roundtrip (rand : Nat → Nat) (s : QueueState)
    (h : s.shuffle = false) :
    ((restoreQueueOrder (shuffleQueue rand s).2).2).queue = s.queue := by
  by_cases hl : s.queue.length ≤ 1
  · simp [shuffleQueue, hl, restoreQueueOrder, h]
  · have hne : ¬ (s.queue.length = 0) := by omega
    simp [shuffleQueue, hl, restoreQueueOrder, h, hne]

/-- Witness for the amended C6 at a concrete unshuffled two-entry queue. -/
theorem shuffle_then_restore_roundtrip_witness :
    (QueueState.mk [trackA, trackB] 0 false "none" []).shuffle = false ∧
    ((restoreQueueOrder (shuffleQueue (fun _ => 0)
        (QueueState.mk [trackA, trackB] 0 false "none" [])).2).2).queue =
      (QueueState.mk [trackA, trackB] 0 false "none" []).queue :=
  ⟨rfl, shuffle_then_restore_roundtrip (fun _ => 0)
    (QueueState.mk [trackA, trackB] 0 false "none" []) rfl⟩

/-- C5 counterexample: removing the current entry itself (`index =
currentIndex = 1` in a 3-entry queue) leaves `currentIndex = 0`, which points
at the predecessor `trackA` — neither the removed entry's logical position
nor `-1`. -/
theorem removeFromQueue_counterexample :
    (removeFromQueue 1 (QueueState.mk [trackA, trackB, trackC] 1 false "none" [])).1 =
      QueueOutcome.success ∧
    ((removeFromQueue 1
        (QueueState.mk [trackA, trackB, trackC] 1 false "none" [])).2).currentTrackIndex = 0 ∧
    ((0 : Int) = -1 → False) ∧
    ((removeFromQueue 1
        (QueueState.mk [trackA, trackB, trackC] 1 false "none" [])).2).queue =
      [trackA, trackC] ∧
    trackA ≠ trackB := by
  decide

/-- C5 amended: for an in-range `index <= currentIndex` (with a valid current
index), `removeFromQueue` decrements `currentIndex` clamped at -1; when
`index < currentIndex` the new index points at the same logical entry as
before; when `index = currentIndex` the new index points at the entry that
preceded the removed one, or is -1 when the removed entry was at index 0. -/
theorem removeFromQueue_amended (s : QueueState) (i : Int)
    (h0 : 0 ≤ i) (h1 : i < (s.queue.length : Int))
    (h2 : i ≤ s.currentTrackIndex)
    (h3 : s.currentTrackIndex < (s.queue.length : Int)) :
    (removeFromQueue i s).1 = QueueOutcome.success ∧
    ((removeFromQueue i s).2).currentTrackIndex =
      max (-1) (s.currentTrackIndex - 1) ∧
    (i < s.currentTrackIndex →
      ((removeFromQueue i s).2).queue[(s.currentTrackIndex - 1).toNat]? =
        s.queue[s.currentTrackIndex.toNat]?) ∧
    (i = s.currentTrackIndex → 0 < i →
      ((removeFromQueue i s).2).queue[(i - 1).toNat]? =
        s.queue[(i - 1).toNat]?) ∧
    (i = s.currentTrackIndex → i = 0 →
      ((removeFromQueue i s).2).currentTrackIndex = -1) := by
  have hguard : ¬ (i < 0 ∨ (s.queue.length : Int) ≤ i) := by omega
  refine ⟨?_, ?_, ?_, ?_, ?_⟩
  · simp [removeFromQueue, if_neg hguard]
  · simp [removeFromQueue, if_neg hguard, if_pos h2]
  · intro hlt
    simp only [removeFromQueue, if_neg hguard, if_pos h2]
    have hk : i.toNat ≤ (s.currentTrackIndex - 1).toNat := by omega
    rw [List.getElem?_eraseIdx_of_ge _ _ _ hk]
    congr 1
    omega
  · intro heq hpos
    simp only [removeFromQueue, if_neg hguard, if_pos h2]
    have hk : (i - 1).toNat < i.toNat := by omega
    rw [List.getElem?_eraseIdx_of_lt _ _ _ hk]
  · intro heq hzero
    simp only [removeFromQueue, if_neg hguard, if_pos h2]
    omega

/-- Witness for the amended C5: remove index 1 below `currentIndex = 2`. -/
theorem removeFromQueue_amended_witness :
    (0 : Int) ≤ 1 ∧
    (1 : Int) <
      ((QueueState.mk [trackA, trackB, trackC] 2 false "none" []).queue.length : Int) ∧
    (1 : Int) ≤ (QueueState.mk [trackA, trackB, trackC] 2 false "none" []).currentTrackIndex ∧
    ((removeFromQueue 1
        (QueueState.mk [trackA, trackB, trackC] 2 false "none" [])).2).currentTrackIndex =
      max (-1) ((QueueState.mk [trackA, trackB, trackC] 2 false "none" []).currentTrackIndex - 1) :=
  ⟨by decide, by decide, by decide,
   (removeFromQueue_amended (QueueState.mk [trackA, trackB, trackC] 2 false "none" []) 1
     (by decide) (by decide) (by decide) (by decide)).2.1⟩

/-- A queue-mutating operation of the service, for reachability statements. -/
inductive QOp where
  | shuffleOp (rand : Nat → Nat)
  | restoreOp
  | clearOp
  | removeOp (i : Int)
  | loadOp (tracks : List Track)
  | setRepeatOp (m : String)

/-- State effect of one queue operation. -/
def applyQOp (op : QOp) (s : QueueState) : QueueState :=
  match op with
  | QOp.shuffleOp rand => (shuffleQueue rand s).2
  | QOp.restoreOp => (restoreQueueOrder s).2
  | QOp.clearOp => (clearQueue s).2
  | QOp.removeOp i => (removeFromQueue i s).2
  | QOp.loadOp tracks => addToQueueLoaded tracks s
  | QOp.setRepeatOp m => (setRepeatMode m s).2

/-- State after a sequence of queue operations from the initial state. -/
def applyQOps (ops : List QOp) (s : QueueState) : QueueState :=
  ops.foldl (fun st op => applyQOp op st) s

/-- C8 counterexample: the reachable state load-shuffle-restore has
`shuffle = false` yet a non-empty `originalQueue` — `restoreQueueOrder`
clears the flag but leaves the snapshot behind. -/
theorem queueOps_snapshot_counterexample :
    (applyQOps
        [QOp.loadOp [trackA, trackB], QOp.shuffleOp (fun _ => 0), QOp.restoreOp]
        initialQueueState).shuffle = false ∧
    (applyQOps
        [QOp.loadOp [trackA, trackB], QOp.shuffleOp (fun _ => 0), QOp.restoreOp]
        initialQueueState).originalQueue = [trackA, trackB] ∧
    (applyQOps
        [QOp.loadOp [trackA, trackB], QOp.shuffleOp (fun _ => 0), QOp.restoreOp]
        initialQueueState).originalQueue ≠ [] := by
  decide

/-- C8 amended: the per-operation snapshot behavior that actually holds:
`restoreQueueOrder` leaves `originalQueue` untouched (so a non-empty snapshot
persists after the shuffle flag is cleared), `clearQueue` empties the
snapshot without clearing the shuffle flag, and `shuffleQueue` snapshots the
entries exactly when not already shuffled. -/
theorem queueOps_snapshot_amended (s : QueueState) (rand : Nat → Nat) :
    ((restoreQueueOrder s).2).originalQueue = s.originalQueue ∧
    ((clearQueue s).2).originalQueue = [] ∧
    ((clearQueue s).2).shuffle = s.shuffle ∧
    (s.shuffle = false → 2 ≤ s.queue.length →
      ((shuffleQueue rand s).2).originalQueue = s.queue ∧
      ((shuffleQueue rand s).2).shuffle = true) ∧
    (s.shuffle = true →
      ((shuffleQueue rand s).2).originalQueue = s.originalQueue) := by
  refine ⟨?_, rfl, rfl, ?_, ?_⟩
  · unfold restoreQueueOrder
    split <;> rfl
  · intro hsf hlen
    have hl : ¬ s.queue.length ≤ 1 := by omega
    constructor <;> simp [shuffleQueue, hl, hsf]
  · intro hsf
    by_cases hl : s.queue.length ≤ 1 <;> simp [shuffleQueue, hl, hsf]

/-- Witness for the amended C8 at a concrete shuffled state. -/
theorem queueOps_snapshot_amended_witness :
    (QueueState.mk [trackA, trackB] 0 false "none" []).shuffle = false ∧
    ((shuffleQueue (fun _ => 0)
        (QueueState.mk [trackA, trackB] 0 false "none" [])).2).originalQueue =
      [trackA, trackB] :=
  ⟨rfl,
   ((queueOps_snapshot_amended (QueueState.mk [trackA, trackB] 0 false "none" [])
      (fun _ => 0)).2.2.2.1 rfl (by decide)).1⟩

/-- C7 counterexample: `disconnect()` on a connected state with a one-entry
queue leaves the queue entries and `currentIndex` untouched, contradicting
"the queue's entries are empty and currentIndex is -1". -/
theorem disconnect_counterexample :
    ((disconnect
        (ServiceState.mk (some "Salon") defaultStatusJS true
          (QueueState.mk [trackA] 0 false "none" []))).qs).queue = [trackA] ∧
    ((disconnect
        (ServiceState.mk (some "Salon") defaultStatusJS true
          (QueueState.mk [trackA] 0 false "none" []))).qs).queue ≠ [] ∧
    ((disconnect
        (ServiceState.mk (some "Salon") defaultStatusJS true
          (QueueState.mk [trackA] 0 false "none" []))).qs).currentTrackIndex = 0 := by
  exact ⟨rfl, by decide, rfl⟩

/-- C7 amended: `disconnect()` cancels the keep-alive, nulls the device and
(when one was connected) resets the cached status to the default; the queue
fields are left unchanged; the operation is idempotent. -/
theorem disconnect_amended (s : ServiceState) :
    (disconnect s).currentDevice = none ∧
    (disconnect s).connectionKeepAlive = false ∧
    (s.currentDevice.isSome = true →
      (disconnect s).currentStatus = defaultStatusJS) ∧
    (s.currentDevice.isSome = false →
      (disconnect s).currentStatus = s.currentStatus) ∧
    (disconnect s).qs = s.qs ∧
    disconnect (disconnect s) = disconnect s := by
  cases h : s.currentDevice <;> simp [disconnect, h]

/-- Witness for the amended C7 at a concrete connected state. -/
theorem disconnect_amended_witness :
    (ServiceState.mk (some "Salon") (JSVal.jsStr "stale") true
        (QueueState.mk [trackA] 0 false "none" [])).currentDevice.isSome = true ∧
    (disconnect
        (ServiceState.mk (some "Salon") (JSVal.jsStr "stale") true
          (QueueState.mk [trackA] 0 false "none" []))).currentStatus =
      defaultStatusJS :=
  ⟨rfl,
   (disconnect_amended
      (ServiceState.mk (some "Salon") (JSVal.jsStr "stale") true
        (QueueState.mk [trackA] 0 false "none" []))).2.2.1 rfl⟩

/-- C1 counterexample: with `repeatMode = "all"` and `currentIndex` at the
last valid index, the next-track rule (and the automatic advance) selects
index 0, but `skipToNext` does not: it stops the current track (or reports
nothing to play) and leaves `currentTrackIndex` unchanged. -/
theorem skipToNext_no_wrap_counterexample :
    (skipToNext (SkipEnv.mk true true)
        (QueueState.mk [trackA, trackB] 1 false "all" [])).1 =
      SkipAction.stopCurrent ∧
    ((skipToNext (SkipEnv.mk true true)
        (QueueState.mk [trackA, trackB] 1 false "all" [])).2).currentTrackIndex = 1 ∧
    (skipToNext (SkipEnv.mk false false)
        (QueueState.mk [trackA, trackB] 1 false "all" [])).1 =
      SkipAction.infoNoTrack ∧
    advanceSelect "all" 2 1 = some 0 ∧
    trackFinishedSelect "all" 2 1 = some 0 := by
  decide

/-- C1 amended: the automatic advance (`_handleTrackFinished` and
`_executeAdvancement`) selects the next track exactly by the stated rule, but
`skipToNext` only advances by one while `currentIndex` is below the last
index; at the last index it stops playback or reports no next track
regardless of the repeat mode (no wrap under ALL, no replay under ONE), and
the queue state is unchanged there. -/
theorem nextTrackSelection_amended (repeatMode : String) (len : Nat)
    (idx : Int) (env : SkipEnv) (s : QueueState) (h : -1 ≤ idx) :
    (repeatMode = "one" → 0 ≤ idx →
      advanceSelect repeatMode len idx = some idx) ∧
    (¬ (repeatMode = "one" ∧ 0 ≤ idx) → idx < (len : Int) - 1 →
      advanceSelect repeatMode len idx = some (idx + 1)) ∧
    (¬ (repeatMode = "one" ∧ 0 ≤ idx) → ¬ idx < (len : Int) - 1 →
      repeatMode = "all" → 0 < len →
      advanceSelect repeatMode len idx = some 0) ∧
    (¬ (repeatMode = "one" ∧ 0 ≤ idx) → ¬ idx < (len : Int) - 1 →
      ¬ (repeatMode = "all" ∧ 0 < len) →
      advanceSelect repeatMode len idx = none) ∧
    trackFinishedSelect repeatMode len idx = advanceSelect repeatMode len idx ∧
    (0 < s.queue.length → s.currentTrackIndex < (s.queue.length : Int) - 1 →
      skipToNext env s =
        (SkipAction.playNext (s.currentTrackIndex + 1),
         { s with currentTrackIndex := s.currentTrackIndex + 1 })) ∧
    (¬ (0 < s.queue.length ∧ s.currentTrackIndex < (s.queue.length : Int) - 1) →
      (skipToNext env s).2 = s ∧
      (skipToNext env s).1 =
        (if env.hasPlayer ∧ env.cachedPlaying then SkipAction.stopCurrent
         else SkipAction.infoNoTrack)) := by
  refine ⟨?_, ?_, ?_, ?_, ?_, ?_, ?_⟩
  · intro h1 h2
    simp [advanceSelect, h1, h2]
  · intro h1 h2
    simp only [advanceSelect, if_neg h1, if_pos h2]
  · intro h1 h2 h3 h4
    simp only [advanceSelect, if_neg h1, if_neg h2, if_pos (And.intro h3 h4)]
  · intro h1 h2 h3
    simp only [advanceSelect, if_neg h1, if_neg h2, if_neg h3]
  · simp only [trackFinishedSelect, advanceSelect]
    split_ifs <;> first | rfl | omega
  · intro h1 h2
    simp only [skipToNext, if_pos (And.intro h1 h2)]
  · intro h1
    simp only [skipToNext, if_neg h1]
    by_cases henv : env.hasPlayer = true ∧ env.cachedPlaying = true <;>
      simp [henv]

/-- Witness for the amended C1 at a concrete mid-queue state. -/
theorem nextTrackSelection_amended_witness :
    (-1 : Int) ≤ 0 ∧
    advanceSelect "none" 3 0 = some 1 ∧
    skipToNext (SkipEnv.mk true true)
        (QueueState.mk [trackA, trackB, trackC] 0 false "none" []) =
      (SkipAction.playNext 1,
       QueueState.mk [trackA, trackB, trackC] 1 false "none" []) := by
  have h := nextTrackSelection_amended "none" 3 0 (SkipEnv.mk true true)
    (QueueState.mk [trackA, trackB, trackC] 0 false "none" []) (by decide)
  refine ⟨by decide, h.2.1 (by decide) (by decide), ?_⟩
  have h6 := h.2.2.2.2.2.1 (by decide) (by decide)
  exact h6

/-- Witness for C10 at a concrete two-entry queue and a concrete draw. -/
theorem shuffleQueue_is_permutation_witness :
    2 ≤ (QueueState.mk [trackA, trackB] 0 false "none" []).queue.length ∧
    (List.Perm
      ((shuffleQueue (fun _ => 0)
        (QueueState.mk [trackA, trackB] 0 false "none" [])).2).queue
      (QueueState.mk [trackA, trackB] 0 false "none" []).queue ∧
    ((shuffleQueue (fun _ => 0)
        (QueueState.mk [trackA, trackB] 0 false "none" [])).2).queue.length =
      (QueueState.mk [trackA, trackB] 0 false "none" []).queue.length) :=
  ⟨by decide,
   shuffleQueue_is_permutation (fun _ => 0)
     (QueueState.mk [trackA, trackB] 0 false "none" []) (by decide)⟩

/-- C9 counterexample: a single status update that is past the 70% preload
threshold AND is a PLAYING-to-IDLE transition (with both flags clear) starts
BOTH strategies: the preload-and-switch and the fallback stop-then-load
advance.  Both triggers are computed from the pre-update flag values, so the
`isAutoAdvancing` check does not make them mutually exclusive. -/
theorem transition_both_strategies_counterexample :
    handleTrackTransition (some "PLAYING")
      (TransStatus.mk "IDLE" (some 95) (some (TransMedia.mk (some 100))))
      2 0 false false = (true, true) := by
  simp only [handleTrackTransition, shouldPreloadNow, shouldAdvanceTraditional]
  norm_num

/-- C9 amended: the guarantee the `isAutoAdvancing` flag actually provides:
while an advance is in flight (flag set), a status update starts neither the
preload nor the fallback advance, and the seamless-transition watcher cancels
instead of committing; but a single status update arriving with the flag
clear can start both strategies at once when both triggers hold. -/
theorem autoAdvance_flag_guarantee (prev : Option String) (st : TransStatus)
    (len : Nat) (idx : Int) (preloadInProgress : Bool)
    (wst : Option TransStatus) (curIdx nextIndex : Int) :
    handleTrackTransition prev st len idx true preloadInProgress =
      (false, false) ∧
    checkForTransition true wst curIdx nextIndex = WatchStep.cancel := by
  constructor
  · unfold handleTrackTransition shouldPreloadNow shouldAdvanceTraditional
    cases hm : st.media with
    | none => simp
    | some m =>
      cases hct : st.currentTime with
      | none => simp
      | some ct =>
        cases hd : m.duration with
        | none => simp [hd]
        | some d => simp [hd]
  · unfold checkForTransition
    simp

/-- C4: `_playTrackWithRecovery` makes at most 3 attempts, waits
`attempt * 1000` ms after each failed non-final attempt (linear backoff), and
when all 3 attempts fail the error propagates with no fourth attempt made. -/
theorem playTrackWithRecovery_bounded (outcome : Nat → Bool) :
    (playTrackWithRecovery outcome).2.1 ≤ 3 ∧
    (playTrackWithRecovery outcome).2.2 =
      (List.range ((playTrackWithRecovery outcome).2.1 - 1)).map
        (fun k => 1000 * (k + 1)) ∧
    ((∀ a, 1 ≤ a → a ≤ 3 → outcome a = false) →
      (playTrackWithRecovery outcome).1 = Except.error "track play failed" ∧
      (playTrackWithRecovery outcome).2.1 = 3) := by
  cases h1 : outcome 1 with
  | true =>
    refine ⟨?_, ?_, ?_⟩
    · simp [playTrackWithRecovery, recoveryGo, h1]
    · simp [playTrackWithRecovery, recoveryGo, h1]
    · intro hall
      exact absurd h1 (by simp [hall 1 (by omega) (by omega)])
  | false =>
    cases h2 : outcome 2 with
    | true =>
      refine ⟨?_, ?_, ?_⟩
      · simp [playTrackWithRecovery, recoveryGo, h1, h2]
      · simp [playTrackWithRecovery, recoveryGo, h1, h2, List.range_succ]
      · intro hall
        exact absurd h2 (by simp [hall 2 (by omega) (by omega)])
    | false =>
      cases h3 : outcome 3 with
      | true =>
        refine ⟨?_, ?_, ?_⟩
        · simp [playTrackWithRecovery, recoveryGo, h1, h2, h3]
        · simp [playTrackWithRecovery, recoveryGo, h1, h2, h3, List.range_succ]
        · intro hall
          exact absurd h3 (by simp [hall 3 (by omega) (by omega)])
      | false =>
        refine ⟨?_, ?_, ?_⟩
        · simp [playTrackWithRecovery, recoveryGo, h1, h2, h3]
        · simp [playTrackWithRecovery, recoveryGo, h1, h2, h3, List.range_succ]
        · intro hall
          simp [playTrackWithRecovery, recoveryGo, h1, h2, h3]

/-- Witness for C4 with every attempt failing: exactly 3 attempts, error. -/
theorem playTrackWithRecovery_bounded_witness :
    (playTrackWithRecovery (fun _ => false)).2.1 ≤ 3 ∧
    (playTrackWithRecovery (fun _ => false)).1 =
      Except.error "track play failed" ∧
    (playTrackWithRecovery (fun _ => false)).2.1 = 3 := by
  have h := playTrackWithRecovery_bounded (fun _ => false)
  have h2 := h.2.2 (fun a _ _ => rfl)
  exact ⟨h.1, h2.1, h2.2⟩

theorem verifyPlaybackLoop_false (fuel : Nat) :
    ∀ (cached : Option String) (polls : List (Option String)),
      (∀ ps, cached = some ps → playingOrBuffering ps = false) →
      (∀ p, p ∈ polls → ∀ ps, p = some ps → playingOrBuffering ps = false) →
      verifyPlaybackLoop cached polls fuel = false := by
  induction fuel with
  | zero => intro cached polls _ _; rfl
  | succ fuel ih =>
    intro cached polls hc hp
    have hcb : cachedPlayingOrBuffering cached = false := by
      cases cached with
      | none => rfl
      | some ps => exact hc ps rfl
    simp only [verifyPlaybackLoop, hcb, Bool.false_eq_true, if_false]
    cases polls with
    | nil =>
      exact ih cached [] hc (by intro p hmem; simp at hmem)
    | cons p rest =>
      cases p with
      | some ps =>
        have hps : playingOrBuffering ps = false :=
          hp (some ps) (List.mem_cons_self _ _) ps rfl
        simp only [hps, Bool.false_eq_true, if_false]
        refine ih (some ps) rest ?_ ?_
        · intro ps' h'
          cases h'
          exact hps
        · intro q hmem ps' h'
          exact hp q (List.mem_cons_of_mem _ hmem) ps' h'
      | none =>
        refine ih cached rest hc ?_
        intro q hmem ps' h'
        exact hp q (List.mem_cons_of_mem _ hmem) ps' h'

/-- C2: when the load acknowledgement succeeds but no polled (or cached)
player state within the verification window is PLAYING or BUFFERING, the
play command fails with the playback-verification error, and
`currentTrackIndex` is left at the attempted track (not rolled back); the
verification window polls every 250 ms for `max(3000, configured-or-5000)`
ms (at least 3 s, 5 s by default). -/
theorem playbackVerification_failure (cfg : Option Int) (cached : Option String)
    (polls : List (Option String)) (fuel : Nat) (s : QueueState) (n : Int)
    (hq : ¬ s.queue.length = 0)
    (hn1 : 0 < n) (hn2 : n ≤ (s.queue.length : Int))
    (hc : ∀ ps, cached = some ps → playingOrBuffering ps = false)
    (hp : ∀ p, p ∈ polls → ∀ ps, p = some ps → playingOrBuffering ps = false) :
    (3000 : Int) ≤ verificationTimeout cfg ∧
    verificationTimeout none = 5000 ∧
    pollIntervalMs = 250 ∧
    (skipToTrack n true cached polls fuel s).1 =
      Except.error "Playback verification failed" ∧
    ((skipToTrack n true cached polls fuel s).2).currentTrackIndex = n - 1 := by
  have hv := verifyPlaybackLoop_false fuel cached polls hc hp
  have hg2 : ¬ (n - 1 < 0 ∨ (s.queue.length : Int) ≤ n - 1) := by omega
  refine ⟨?_, rfl, rfl, ?_, ?_⟩
  · unfold verificationTimeout
    exact le_max_left 3000 _
  · simp only [skipToTrack, if_neg hq, if_neg hg2, playMediaDirectly, hv]
    rfl
  · simp only [skipToTrack, if_neg hq, if_neg hg2, playMediaDirectly, hv]
    rfl

/-- Witness for C2: one-track queue, load acknowledged, no status ever
reaches PLAYING/BUFFERING within the window. -/
theorem playbackVerification_failure_witness :
    (skipToTrack 1 true none [] 20
        (QueueState.mk [trackA] (-1) false "none" [])).1 =
      Except.error "Playback verification failed" ∧
    ((skipToTrack 1 true none [] 20
        (QueueState.mk [trackA] (-1) false "none" [])).2).currentTrackIndex = 0 := by
  have h := playbackVerification_failure none none [] 20
    (QueueState.mk [trackA] (-1) false "none" []) 1
    (by decide) (by decide) (by decide)
    (by intro ps h'; cases h')
    (by intro p hmem; simp at hmem)
  exact ⟨h.2.2.2.1, h.2.2.2.2⟩

/-- C3: the status normalizer is total and fully defaulting: any falsy or
non-object input yields exactly the default status; on objects, a missing or
non-string `playerState` comes out as "IDLE", a missing or non-number
`currentTime` as 0, a `volume` that is neither an object nor a number as
`null`, and a non-object `media` as `null`; by construction the returned
record always has every field populated (never a partially-null shape). -/
theorem sanitizeStatus_defaults (raw : JSVal) :
    ((truthy raw = false ∨ raw.isObj = false) →
      sanitizeStatus raw = defaultSafeStatus) ∧
    ((sanitizeStatus raw).playerState =
      match getField raw "playerState" with
      | JSVal.jsStr ps => ps
      | _ => "IDLE") ∧
    ((sanitizeStatus raw).currentTime =
      match getField raw "currentTime" with
      | JSVal.jsNum q => q
      | _ => 0) ∧
    (((getField raw "volume").isObj = false ∧
        ∀ q, getField raw "volume" ≠ JSVal.jsNum q) →
      (sanitizeStatus raw).volume = none) ∧
    ((getField raw "media").isObj = false →
      (sanitizeStatus raw).media = none) := by
  cases raw with
  | jsObj fs =>
    refine ⟨?_, ?_, ?_, ?_, ?_⟩
    · intro h
      rcases h with h | h <;> simp [truthy, JSVal.isObj] at h
    · simp only [sanitizeStatus, truthy, JSVal.isObj]
      cases hv : getField (JSVal.jsObj fs) "playerState" <;> simp [hv]
    · simp only [sanitizeStatus, truthy, JSVal.isObj]
      cases hv : getField (JSVal.jsObj fs) "currentTime" <;> simp [hv]
    · intro h
      obtain ⟨h1, h2⟩ := h
      simp only [sanitizeStatus, truthy, JSVal.isObj]
      cases hv : getField (JSVal.jsObj fs) "volume" with
      | jsObj gs => rw [hv] at h1; simp [JSVal.isObj] at h1
      | jsNum q => exact absurd hv (h2 q)
      | jsUndef => simp [hv, truthy, JSVal.isObj]
      | jsNull => simp [hv, truthy, JSVal.isObj]
      | jsBool b => simp [hv, truthy, JSVal.isObj]
      | jsStr t => simp [hv, truthy, JSVal.isObj]
    · intro h
      simp only [sanitizeStatus, truthy, JSVal.isObj]
      cases hv : getField (JSVal.jsObj fs) "media" with
      | jsObj gs => rw [hv] at h; simp [JSVal.isObj] at h
      | jsNum q => simp [hv, truthy, JSVal.isObj]
      | jsUndef => simp [hv, truthy, JSVal.isObj]
      | jsNull => simp [hv, truthy, JSVal.isObj]
      | jsBool b => simp [hv, truthy, JSVal.isObj]
      | jsStr t => simp [hv, truthy, JSVal.isObj]
  | jsUndef => exact ⟨fun _ => rfl, rfl, rfl, fun _ => rfl, fun _ => rfl⟩
  | jsNull => exact ⟨fun _ => rfl, rfl, rfl, fun _ => rfl, fun _ => rfl⟩
  | jsBool b =>
    cases b with
    | false => exact ⟨fun _ => rfl, rfl, rfl, fun _ => rfl, fun _ => rfl⟩
    | true => exact ⟨fun _ => rfl, rfl, rfl, fun _ => rfl, fun _ => rfl⟩
  | jsNum q =>
    refine ⟨fun _ => ?_, ?_, ?_, fun _ => ?_, fun _ => ?_⟩ <;>
      simp [sanitizeStatus, truthy, JSVal.isObj, getField, defaultSafeStatus]
  | jsStr t =>
    refine ⟨fun _ => ?_, ?_, ?_, fun _ => ?_, fun _ => ?_⟩ <;>
      simp [sanitizeStatus, truthy, JSVal.isObj, getField, defaultSafeStatus]

/-- Witness for C3 at `null` and at a partial object missing every status
field. -/
theorem sanitizeStatus_defaults_witness :
    sanitizeStatus JSVal.jsNull = defaultSafeStatus ∧
    (sanitizeStatus (JSVal.jsObj [("foo", JSVal.jsNum 3)])).playerState =
      "IDLE" ∧
    (sanitizeStatus (JSVal.jsObj [("foo", JSVal.jsNum 3)])).volume = none := by
  have h1 := sanitizeStatus_defaults JSVal.jsNull
  have h2 := sanitizeStatus_defaults (JSVal.jsObj [("foo", JSVal.jsNum 3)])
  refine ⟨h1.1 (Or.inl rfl), ?_, ?_⟩
  · have := h2.2.1
    simpa [getField] using this
  · refine h2.2.2.2.1 ⟨rfl, ?_⟩
    intro q h
    exact JSVal.noConfusion (by simpa [getField] using h)
